import Mathlib

/-!
Verification of the LiquidTWI LCD driver (`src/LiquidTWI.cpp`).

The driver controls an HD44780-style character LCD through an MCP23008 I2C
GPIO expander.  We embed the driver shallowly: the class members become a
Lean structure of natural numbers (each member is a C `uint8_t`, so stored
values are reduced mod 256), and each member function becomes a Lean
function returning the updated state and/or the trace of externally visible
effects (I2C transactions and blocking delays) it performs, in order.
-/

/-- Modelled from the spec: the header `LiquidTWI.h` declaring the command
constants is not part of `src/`; this is the standard MCP23008 base I2C
address used by the driver (a 7-bit device address formed from a fixed base
plus the 3-bit selector, per spec section 6). -/
def MCP23008_ADDRESS : Nat := 0x20

/-- Modelled from the spec: MCP23008 I/O-direction register, the register
written by the expander-configuration transactions of `begin`. -/
def MCP23008_IODIR : Nat := 0x00

/-- Modelled from the spec: MCP23008 GPIO output register, the register
written by every `burstBits` call. -/
def MCP23008_GPIOREG : Nat := 0x09

/-- Modelled from the spec: HD44780 clear-display command (header constant;
standard datasheet value). -/
def LCD_CLEARDISPLAY : Nat := 0x01

/-- Modelled from the spec: HD44780 return-home command. -/
def LCD_RETURNHOME : Nat := 0x02

/-- Modelled from the spec: HD44780 entry-mode-set command flag. -/
def LCD_ENTRYMODESET : Nat := 0x04

/-- Modelled from the spec: HD44780 display-control command flag. -/
def LCD_DISPLAYCONTROL : Nat := 0x08

/-- Modelled from the spec: HD44780 cursor/display-shift command flag. -/
def LCD_CURSORSHIFT : Nat := 0x10

/-- Modelled from the spec: HD44780 function-set command flag; the source
comment `then send 0010NF00 (N=lines, F=font)` corroborates the value. -/
def LCD_FUNCTIONSET : Nat := 0x20

/-- Modelled from the spec: HD44780 set-CGRAM-address command flag. -/
def LCD_SETCGRAMADDR : Nat := 0x40

/-- Modelled from the spec: HD44780 set-DDRAM-address command flag. -/
def LCD_SETDDRAMADDR : Nat := 0x80

/-- Modelled from the spec: entry-mode flag, text flows left to right. -/
def LCD_ENTRYLEFT : Nat := 0x02

/-- Modelled from the spec: entry-mode flag, shift-decrement (no shift). -/
def LCD_ENTRYSHIFTDECREMENT : Nat := 0x00

/-- Modelled from the spec: entry-mode flag, autoscroll. -/
def LCD_ENTRYSHIFTINCREMENT : Nat := 0x01

/-- Modelled from the spec: display-control flag, display on. -/
def LCD_DISPLAYON : Nat := 0x04

/-- Modelled from the spec: display-control flag, cursor on. -/
def LCD_CURSORON : Nat := 0x02

/-- Modelled from the spec: display-control flag, blink on. -/
def LCD_BLINKON : Nat := 0x01

/-- Modelled from the spec: shift-command flag, move display. -/
def LCD_DISPLAYMOVE : Nat := 0x08

/-- Modelled from the spec: shift-command flag, move right. -/
def LCD_MOVERIGHT : Nat := 0x04

/-- Modelled from the spec: shift-command flag, move left. -/
def LCD_MOVELEFT : Nat := 0x00

/-- Modelled from the spec: function-set flag, 8-bit interface. -/
def LCD_8BITMODE : Nat := 0x10

/-- Modelled from the spec: function-set flag, 4-bit interface. -/
def LCD_4BITMODE : Nat := 0x00

/-- Modelled from the spec: function-set flag, 2-line display. -/
def LCD_2LINE : Nat := 0x08

/-- Modelled from the spec: function-set flag, 1-line display. -/
def LCD_1LINE : Nat := 0x00

/-- Modelled from the spec: function-set flag, 5x10-dot font. -/
def LCD_5x10DOTS : Nat := 0x04

/-- Modelled from the spec: function-set flag, 5x8-dot font. -/
def LCD_5x8DOTS : Nat := 0x00

/-- Modelled from the spec: the backlight flag the driver overloads into
`_displaycontrol`; the source writes it with `bitWrite(_displaycontrol,3,..)`,
corroborating bit 3, i.e. value 0x08. -/
def LCD_BACKLIGHT : Nat := 0x08

/-- Arduino `HIGH`. -/
def HIGH : Nat := 1

/-- Arduino `LOW`. -/
def LOW : Nat := 0

/-- Externally visible effects of the driver, in program order: blocking
delays (`delay`, `delayMicroseconds`), `Wire.begin()`, and one complete I2C
transaction to the MCP23008 (`beginTransmission addr`, the written bytes,
`endTransmission`). -/
inductive Ev where
  | delayMs (ms : Nat)
  | delayUs (us : Nat)
  | wireBegin
  | mcpTx (addr : Nat) (bytes : List Nat)
  deriving Repr, DecidableEq

/-- The driver's member state (`LiquidTWI` class).  Every field is a C
`uint8_t`, kept < 256 by the operations. -/
structure LiquidTWI where
  i2cAddr : Nat
  displayfunction : Nat
  displaycontrol : Nat
  displaymode : Nat
  numlines : Nat
  currline : Nat
  deriving Repr, DecidableEq

namespace LiquidTWI

/-- The constructor `LiquidTWI::LiquidTWI(uint8_t i2cAddr)`.  It clamps the
address to 7 and sets `_displayfunction`; the remaining members are left
uninitialized in C++, so they appear here as arbitrary junk parameters
`dc`, `dm`, `nl`, `cl` (each a byte). -/
def init (i2cAddr dc dm nl cl : Nat) : LiquidTWI :=
  let i2cAddr := i2cAddr % 256
  let i2cAddr := if i2cAddr > 7 then 7 else i2cAddr
  { i2cAddr := i2cAddr
    displayfunction := LCD_4BITMODE ||| LCD_1LINE ||| LCD_5x8DOTS
    displaycontrol := dc % 256
    displaymode := dm % 256
    numlines := nl % 256
    currline := cl % 256 }

/-- `LiquidTWI::burstBits`: one I2C transaction writing `value` to the
expander's GPIO register.  The source's retry on `endTransmission`
(`while (Wire.endTransmission());`) is modelled by `endTransmissionRetry`
below; at the trace level the transaction appears once. -/
def burstBits (s : LiquidTWI) (value : Nat) : Ev :=
  Ev.mcpTx (MCP23008_ADDRESS ||| s.i2cAddr) [MCP23008_GPIOREG, value % 256]

/-- `LiquidTWI::send(uint8_t value, uint8_t mode)`: split `value` into two
nibbles (high first) and burst each as an enable-high/enable-low pair, with
the RS bit reflecting `mode` and the backlight bit mirrored from
`_displaycontrol`. -/
def send (s : LiquidTWI) (value mode : Nat) : List Ev :=
  let value := value % 256
  let mode := mode % 256
  let buf := (value &&& 0xF0) >>> 1
  let buf := if mode ≠ 0 then buf ||| (3 <<< 1) else buf ||| (2 <<< 1)
  let buf := buf ||| (if s.displaycontrol &&& LCD_BACKLIGHT ≠ 0 then 0x80 else 0x00)
  let e1 := s.burstBits buf
  let buf := buf &&& (255 ^^^ (1 <<< 2))
  let e2 := s.burstBits buf
  let buf2 := (value &&& 0x0F) <<< 3
  let buf2 := if mode ≠ 0 then buf2 ||| (3 <<< 1) else buf2 ||| (2 <<< 1)
  let buf2 := buf2 ||| (if s.displaycontrol &&& LCD_BACKLIGHT ≠ 0 then 0x80 else 0x00)
  let e3 := s.burstBits buf2
  let buf2 := buf2 &&& (255 ^^^ (1 <<< 2))
  let e4 := s.burstBits buf2
  [e1, e2, e3, e4]

/-- `LiquidTWI::command(uint8_t value)`. -/
def command (s : LiquidTWI) (value : Nat) : List Ev :=
  s.send value LOW

/-- `LiquidTWI::write(uint8_t value)` (returns the constant 1 in the
Arduino ≥ 100 variant; only the trace matters here). -/
def write (s : LiquidTWI) (value : Nat) : List Ev :=
  s.send value HIGH

/-- `LiquidTWI::clear()`. -/
def clear (s : LiquidTWI) : List Ev :=
  s.command LCD_CLEARDISPLAY ++ [Ev.delayUs 2000]

/-- `LiquidTWI::home()`. -/
def home (s : LiquidTWI) : List Ev :=
  s.command LCD_RETURNHOME ++ [Ev.delayUs 2000]

/-- The row-offset table local to `setCursor`:
`int row_offsets[] = { 0x00, 0x40, 0x14, 0x54 };`. -/
def row_offsets : List Nat := [0x00, 0x40, 0x14, 0x54]

/-- The row clamping step of `setCursor`:
`if ( row > _numlines ) row = _numlines - 1;` where `row` and `_numlines`
are `uint8_t`, so `_numlines - 1` wraps mod 256. -/
def setCursorRow (s : LiquidTWI) (row : Nat) : Nat :=
  if row > s.numlines then (s.numlines + 255) % 256 else row

/-- `LiquidTWI::setCursor(uint8_t col, uint8_t row)`.  The C code indexes
the 4-entry `row_offsets` array with the clamped row; an index ≥ 4 is an
out-of-bounds read (undefined behaviour), modelled as `none`. -/
def setCursor (s : LiquidTWI) (col row : Nat) : Option (List Ev) :=
  let col := col % 256
  let row := s.setCursorRow (row % 256)
  match row_offsets.get? row with
  | some off => some (s.command (LCD_SETDDRAMADDR ||| (col + off)))
  | none => none

/-- `LiquidTWI::noDisplay()` (`_displaycontrol &= ~LCD_DISPLAYON` on a
byte field, i.e. mask with the byte complement). -/
def noDisplay (s : LiquidTWI) : LiquidTWI × List Ev :=
  let s := { s with displaycontrol := s.displaycontrol &&& (255 ^^^ LCD_DISPLAYON) }
  (s, s.command (LCD_DISPLAYCONTROL ||| s.displaycontrol))

/-- `LiquidTWI::display()`. -/
def display (s : LiquidTWI) : LiquidTWI × List Ev :=
  let s := { s with displaycontrol := s.displaycontrol ||| LCD_DISPLAYON }
  (s, s.command (LCD_DISPLAYCONTROL ||| s.displaycontrol))

/-- `LiquidTWI::noCursor()`. -/
def noCursor (s : LiquidTWI) : LiquidTWI × List Ev :=
  let s := { s with displaycontrol := s.displaycontrol &&& (255 ^^^ LCD_CURSORON) }
  (s, s.command (LCD_DISPLAYCONTROL ||| s.displaycontrol))

/-- `LiquidTWI::cursor()`. -/
def cursor (s : LiquidTWI) : LiquidTWI × List Ev :=
  let s := { s with displaycontrol := s.displaycontrol ||| LCD_CURSORON }
  (s, s.command (LCD_DISPLAYCONTROL ||| s.displaycontrol))

/-- `LiquidTWI::noBlink()`. -/
def noBlink (s : LiquidTWI) : LiquidTWI × List Ev :=
  let s := { s with displaycontrol := s.displaycontrol &&& (255 ^^^ LCD_BLINKON) }
  (s, s.command (LCD_DISPLAYCONTROL ||| s.displaycontrol))

/-- `LiquidTWI::blink()`. -/
def blink (s : LiquidTWI) : LiquidTWI × List Ev :=
  let s := { s with displaycontrol := s.displaycontrol ||| LCD_BLINKON }
  (s, s.command (LCD_DISPLAYCONTROL ||| s.displaycontrol))

/-- `LiquidTWI::scrollDisplayLeft()`. -/
def scrollDisplayLeft (s : LiquidTWI) : List Ev :=
  s.command (LCD_CURSORSHIFT ||| LCD_DISPLAYMOVE ||| LCD_MOVELEFT)

/-- `LiquidTWI::scrollDisplayRight()`. -/
def scrollDisplayRight (s : LiquidTWI) : List Ev :=
  s.command (LCD_CURSORSHIFT ||| LCD_DISPLAYMOVE ||| LCD_MOVERIGHT)

/-- `LiquidTWI::leftToRight()`. -/
def leftToRight (s : LiquidTWI) : LiquidTWI × List Ev :=
  let s := { s with displaymode := s.displaymode ||| LCD_ENTRYLEFT }
  (s, s.command (LCD_ENTRYMODESET ||| s.displaymode))

/-- `LiquidTWI::rightToLeft()`. -/
def rightToLeft (s : LiquidTWI) : LiquidTWI × List Ev :=
  let s := { s with displaymode := s.displaymode &&& (255 ^^^ LCD_ENTRYLEFT) }
  (s, s.command (LCD_ENTRYMODESET ||| s.displaymode))

/-- `LiquidTWI::autoscroll()`. -/
def autoscroll (s : LiquidTWI) : LiquidTWI × List Ev :=
  let s := { s with displaymode := s.displaymode ||| LCD_ENTRYSHIFTINCREMENT }
  (s, s.command (LCD_ENTRYMODESET ||| s.displaymode))

/-- `LiquidTWI::noAutoscroll()`. -/
def noAutoscroll (s : LiquidTWI) : LiquidTWI × List Ev :=
  let s := { s with displaymode := s.displaymode &&& (255 ^^^ LCD_ENTRYSHIFTINCREMENT) }
  (s, s.command (LCD_ENTRYMODESET ||| s.displaymode))

/-- `LiquidTWI::createChar(uint8_t location, uint8_t charmap[])`; `charmap`
is modelled as an index function for the 8 glyph rows. -/
def createChar (s : LiquidTWI) (location : Nat) (charmap : Nat → Nat) : List Ev :=
  let location := (location % 256) &&& 0x7
  s.command (LCD_SETCGRAMADDR ||| (location <<< 3))
    ++ (List.range 8).flatMap (fun i => s.write (charmap i))

/-- `LiquidTWI::setBacklight(uint8_t status)`:
`bitWrite(_displaycontrol,3,status)` then burst 0x80 or 0x00 according to
the backlight flag. -/
def setBacklight (s : LiquidTWI) (status : Nat) : LiquidTWI × List Ev :=
  let status := status % 256
  let s := { s with displaycontrol :=
    if status ≠ 0 then s.displaycontrol ||| (1 <<< 3)
    else s.displaycontrol &&& (255 ^^^ (1 <<< 3)) }
  (s, [s.burstBits (if s.displaycontrol &&& LCD_BACKLIGHT ≠ 0 then 0x80 else 0x00)])

/-- `LiquidTWI::begin(uint8_t cols, uint8_t lines, uint8_t dotsize)`:
power-up wait, expander configuration (junk bank write, then all-outputs),
geometry flags, the 8-burst 4-bit-mode handshake, the function-set command
twice with delays, display on, clear, entry mode, backlight on. -/
def begin (s : LiquidTWI) (cols lines dotsize : Nat) : LiquidTWI × List Ev :=
  let _cols := cols % 256
  let lines := lines % 256
  let dotsize := dotsize % 256
  let initTrace : List Ev :=
    [Ev.delayMs 50, Ev.wireBegin,
     Ev.mcpTx (MCP23008_ADDRESS ||| s.i2cAddr)
       [MCP23008_IODIR, 0xFF, 0x00, 0x00, 0x00, 0x00, 0x00, 0x00, 0x00, 0x00, 0x00],
     Ev.mcpTx (MCP23008_ADDRESS ||| s.i2cAddr) [MCP23008_IODIR, 0x00]]
  let s := { s with displayfunction :=
    if lines > 1 then s.displayfunction ||| LCD_2LINE else s.displayfunction }
  let s := { s with numlines := lines, currline := 0 }
  let s := { s with displayfunction :=
    if dotsize ≠ 0 ∧ lines = 1 then s.displayfunction ||| LCD_5x10DOTS else s.displayfunction }
  let handshake : List Ev :=
    [s.burstBits 0x9C, s.burstBits 0x98,
     s.burstBits 0x9C, s.burstBits 0x98,
     s.burstBits 0x9C, s.burstBits 0x98,
     s.burstBits 0x94, s.burstBits 0x90]
  let fsTrace := s.command (LCD_FUNCTIONSET ||| s.displayfunction)
  let s := { s with displaycontrol := LCD_DISPLAYON }
  let dispPair := s.display
  let s := dispPair.1
  let clearTrace := s.clear
  let s := { s with displaymode := LCD_ENTRYLEFT ||| LCD_ENTRYSHIFTDECREMENT }
  let emTrace := s.command (LCD_ENTRYMODESET ||| s.displaymode)
  let blPair := s.setBacklight HIGH
  (blPair.1,
   initTrace ++ handshake ++ [Ev.delayMs 5]
     ++ fsTrace ++ [Ev.delayMs 5] ++ fsTrace ++ [Ev.delayMs 5]
     ++ dispPair.2 ++ clearTrace ++ emTrace ++ blPair.2)

end LiquidTWI

/-- The GPIO-register data bytes of a trace: the payload of each
transaction that writes the MCP23008 GPIO register (the bytes that reach
the LCD's pins). -/
def gpioBytes (t : List Ev) : List Nat :=
  t.filterMap fun e => match e with
    | Ev.mcpTx _ [r, v] => if r = MCP23008_GPIOREG then some v else none
    | _ => none

/-- States reachable through the driver's API: a freshly constructed driver
(with arbitrary junk in the uninitialized members) followed by any sequence
of state-mutating operations. -/
inductive Reachable : LiquidTWI → Prop where
  | init (i2cAddr dc dm nl cl : Nat) : Reachable (LiquidTWI.init i2cAddr dc dm nl cl)
  | begin (s : LiquidTWI) (cols lines dotsize : Nat) :
      Reachable s → Reachable (s.begin cols lines dotsize).1
  | noDisplay (s : LiquidTWI) : Reachable s → Reachable s.noDisplay.1
  | display (s : LiquidTWI) : Reachable s → Reachable s.display.1
  | noCursor (s : LiquidTWI) : Reachable s → Reachable s.noCursor.1
  | cursor (s : LiquidTWI) : Reachable s → Reachable s.cursor.1
  | noBlink (s : LiquidTWI) : Reachable s → Reachable s.noBlink.1
  | blink (s : LiquidTWI) : Reachable s → Reachable s.blink.1
  | leftToRight (s : LiquidTWI) : Reachable s → Reachable s.leftToRight.1
  | rightToLeft (s : LiquidTWI) : Reachable s → Reachable s.rightToLeft.1
  | autoscroll (s : LiquidTWI) : Reachable s → Reachable s.autoscroll.1
  | noAutoscroll (s : LiquidTWI) : Reachable s → Reachable s.noAutoscroll.1
  | setBacklight (s : LiquidTWI) (status : Nat) :
      Reachable s → Reachable (s.setBacklight status).1

/-- The retry loop `while (Wire.endTransmission());` at the end of
`burstBits`, as a fuel-indexed iteration.  `ack k = true` means the k-th
`endTransmission` call returns 0 (success); the loop keeps calling it until
one succeeds.  `some k` means the loop exited after the k-th call
succeeded; `none` means the given fuel was exhausted without success. -/
def endTransmissionRetry (ack : Nat → Bool) : Nat → Nat → Option Nat
  | 0, _ => none
  | fuel + 1, k => if ack k then some k else endTransmissionRetry ack fuel (k + 1)

/-! ## Claims -/

set_option maxRecDepth 10000

/-- C1: For every byte `v`, the four GPIO expander bytes transmitted by
`write v` equal those transmitted by `command v` except that each byte of
`write v` additionally has the mode (RS) bit (0x02) set; in both cases the
high nibble of `v` is transmitted (as an enable-high/enable-low pair, the
second byte being the first with the enable bit 0x04 cleared) before the
low nibble. -/
theorem C1_write_vs_command (s : LiquidTWI) (v : Nat) (hv : v < 256) :
    gpioBytes (s.write v) = (gpioBytes (s.command v)).map (fun b => b ||| 0x02) ∧
    (gpioBytes (s.command v)).length = 4 ∧
    (gpioBytes (s.command v)).getD 1 0 = (gpioBytes (s.command v)).getD 0 0 &&& (255 ^^^ 0x04) ∧
    (gpioBytes (s.command v)).getD 3 0 = (gpioBytes (s.command v)).getD 2 0 &&& (255 ^^^ 0x04) ∧
    ((gpioBytes (s.command v)).getD 0 0 >>> 3) &&& 0x0F = v >>> 4 ∧
    ((gpioBytes (s.command v)).getD 2 0 >>> 3) &&& 0x0F = v &&& 0x0F ∧
    (gpioBytes (s.command v)).getD 0 0 &&& 0x04 = 0x04 ∧
    (gpioBytes (s.command v)).getD 2 0 &&& 0x04 = 0x04 := by
  simp only [LiquidTWI.write, LiquidTWI.command, LiquidTWI.send, LiquidTWI.burstBits, gpioBytes,
    HIGH, LOW, MCP23008_GPIOREG, LCD_BACKLIGHT, Nat.mod_eq_of_lt hv]
  norm_num [List.filterMap]
  by_cases h : s.displaycontrol &&& 8 = 0 <;>
    simp only [h, ite_true, ite_false, reduceIte] <;> revert v <;> decide

/-- C1 witness: the relation evaluated at a fresh driver and `v = 0x41`. -/
theorem C1_witness :
    gpioBytes ((LiquidTWI.init 0 0 0 0 0).write 0x41) =
      (gpioBytes ((LiquidTWI.init 0 0 0 0 0).command 0x41)).map (fun b => b ||| 0x02) ∧
    (gpioBytes ((LiquidTWI.init 0 0 0 0 0).command 0x41)).length = 4 ∧
    (gpioBytes ((LiquidTWI.init 0 0 0 0 0).command 0x41)).getD 1 0 =
      (gpioBytes ((LiquidTWI.init 0 0 0 0 0).command 0x41)).getD 0 0 &&& (255 ^^^ 0x04) ∧
    (gpioBytes ((LiquidTWI.init 0 0 0 0 0).command 0x41)).getD 3 0 =
      (gpioBytes ((LiquidTWI.init 0 0 0 0 0).command 0x41)).getD 2 0 &&& (255 ^^^ 0x04) ∧
    ((gpioBytes ((LiquidTWI.init 0 0 0 0 0).command 0x41)).getD 0 0 >>> 3) &&& 0x0F = 0x41 >>> 4 ∧
    ((gpioBytes ((LiquidTWI.init 0 0 0 0 0).command 0x41)).getD 2 0 >>> 3) &&& 0x0F = 0x41 &&& 0x0F ∧
    (gpioBytes ((LiquidTWI.init 0 0 0 0 0).command 0x41)).getD 0 0 &&& 0x04 = 0x04 ∧
    (gpioBytes ((LiquidTWI.init 0 0 0 0 0).command 0x41)).getD 2 0 &&& 0x04 = 0x04 :=
  C1_write_vs_command (LiquidTWI.init 0 0 0 0 0) 0x41 (by decide)

/-- C2: after a begin with a 2-line, 16-column configuration
(`numlines = 2`), for every column `col` of the 16-column display,
`setCursor col 0` issues the set-DDRAM-address command with address exactly
`col`, and `setCursor col 1` issues it with address exactly `0x40 + col`. -/
theorem C2_setCursor_ddram (s : LiquidTWI) (col : Nat) (hcol : col < 16)
    (hl : s.numlines = 2) :
    s.setCursor col 0 = some (s.command (LCD_SETDDRAMADDR ||| col)) ∧
    s.setCursor col 1 = some (s.command (LCD_SETDDRAMADDR ||| (0x40 + col))) := by
  have h256 : col % 256 = col := Nat.mod_eq_of_lt (by omega)
  simp only [LiquidTWI.setCursor, LiquidTWI.setCursorRow, LiquidTWI.row_offsets, hl, h256]
  norm_num [Nat.add_comm]

/-- C2 witness: column 5 on a driver freshly initialized with
`begin 16 2 0`. -/
theorem C2_witness :
    ((LiquidTWI.init 0 0 0 0 0).begin 16 2 0).1.setCursor 5 0 =
      some (((LiquidTWI.init 0 0 0 0 0).begin 16 2 0).1.command (LCD_SETDDRAMADDR ||| 5)) ∧
    ((LiquidTWI.init 0 0 0 0 0).begin 16 2 0).1.setCursor 5 1 =
      some (((LiquidTWI.init 0 0 0 0 0).begin 16 2 0).1.command (LCD_SETDDRAMADDR ||| (0x40 + 5))) :=
  C2_setCursor_ddram (((LiquidTWI.init 0 0 0 0 0).begin 16 2 0).1) 5 (by decide) (by decide)

/-- C3 counterexample: after `begin 16 2 0`, `setCursor 15 1` does not emit
the DDRAM command for address 0x54 (neither reading the claimed `0x54` as
the address field nor as the raw command byte); the address actually
emitted is 0x40 + 15 = 0x4F. -/
theorem C3_counterexample :
    ((LiquidTWI.init 0 0 0 0 0).begin 16 2 0).1.setCursor 15 1 ≠
      some (((LiquidTWI.init 0 0 0 0 0).begin 16 2 0).1.command (LCD_SETDDRAMADDR ||| 0x54)) ∧
    ((LiquidTWI.init 0 0 0 0 0).begin 16 2 0).1.setCursor 15 1 ≠
      some (((LiquidTWI.init 0 0 0 0 0).begin 16 2 0).1.command 0x54) := by
  decide

/-- C3 (amended): in the scenario `begin 16 2 0` then `setCursor 15 1` then
`write 0x41`, the driver emits the set-DDRAM-address command for address
0x4F (= 0x40 + 15, command byte 0xCF), and then a two-nibble data burst for
the byte 0x41: four GPIO bytes, high nibble 0x4 then low nibble 0x1 on the
data pins, each as an enable pair, with the RS (data) bit set. -/
theorem C3_scenario :
    ((LiquidTWI.init 0 0 0 0 0).begin 16 2 0).1.setCursor 15 1 =
      some (((LiquidTWI.init 0 0 0 0 0).begin 16 2 0).1.command (LCD_SETDDRAMADDR ||| 0x4F)) ∧
    gpioBytes (((LiquidTWI.init 0 0 0 0 0).begin 16 2 0).1.write 0x41) =
      [0xA6, 0xA2, 0x8E, 0x8A] ∧
    (0xA6 >>> 3) &&& 0x0F = 0x04 ∧ (0x8E >>> 3) &&& 0x0F = 0x01 ∧
    0xA6 &&& 0x02 = 0x02 ∧ 0x8E &&& 0x02 = 0x02 := by
  decide

/-- C4 counterexample: with `lineCount = 0` (a freshly constructed driver
whose junk `numlines` is 0), a caller passing `row == lineCount` (both 0)
does NOT underflow: the guard `row > _numlines` is strict, the row index
stays 0 and the 4-entry offset table read is in bounds. -/
theorem C4_counterexample :
    (LiquidTWI.init 0 0 0 0 0).numlines = 0 ∧
    (LiquidTWI.init 0 0 0 0 0).setCursorRow 0 = 0 ∧
    ((LiquidTWI.init 0 0 0 0 0).setCursor 3 0).isSome = true := by
  decide

/-- C4 (amended): in `setCursor col row`, if `row` strictly exceeds
`lineCount` the row is reduced to `lineCount - 1` in byte arithmetic rather
than being clamped to the 4-entry row-offset table's bounds; in particular
a caller passing `row > lineCount` (e.g. `row = lineCount + 1`) when
`lineCount == 0` makes the row index underflow to 255, so the read of the
4-entry offset table is out of bounds for some inputs. -/
theorem C4_row_reduction (s : LiquidTWI) (col row : Nat) (h256 : row < 256)
    (hgt : row > s.numlines) :
    s.setCursorRow row = (s.numlines + 255) % 256 ∧
    (s.numlines = 0 → s.setCursor col row = none) := by
  constructor
  · simp only [LiquidTWI.setCursorRow, if_pos hgt]
  · intro h0
    have hr : row % 256 = row := Nat.mod_eq_of_lt h256
    simp only [LiquidTWI.setCursor, LiquidTWI.setCursorRow, LiquidTWI.row_offsets, h0, hr]
    rw [if_pos (by omega : row > 0)]
    norm_num

/-- C4 witness: `row = 1` on a driver whose `lineCount` is 0 underflows to
row index 255 and the table read is out of bounds. -/
theorem C4_witness :
    (LiquidTWI.init 0 0 0 0 0).setCursorRow 1 = 255 ∧
    (LiquidTWI.init 0 0 0 0 0).setCursor 0 1 = none :=
  ⟨(C4_row_reduction (LiquidTWI.init 0 0 0 0 0) 0 1 (by decide) (by decide)).1,
   (C4_row_reduction (LiquidTWI.init 0 0 0 0 0) 0 1 (by decide) (by decide)).2 (by decide)⟩

/-- C5: constructing the driver with address `a > 7` (as a byte) yields an
effective bus address of exactly 7, constructing with `a ≤ 7` yields `a`,
and no operation of the API ever modifies the address, so the stored
address is in [0,7] in every reachable state. -/
theorem C5_address_clamp_invariant (a dc dm nl cl : Nat) :
    ((a % 256 > 7 → (LiquidTWI.init a dc dm nl cl).i2cAddr = 7) ∧
     (a % 256 ≤ 7 → (LiquidTWI.init a dc dm nl cl).i2cAddr = a % 256)) ∧
    ∀ s : LiquidTWI, Reachable s → s.i2cAddr ≤ 7 := by
  refine ⟨⟨fun h => ?_, fun h => ?_⟩, fun s hs => ?_⟩
  · simp only [LiquidTWI.init, if_pos h]
  · simp only [LiquidTWI.init]
    rw [if_neg (by omega)]
  · induction hs with
    | init a dc dm nl cl => simp only [LiquidTWI.init]; split <;> omega
    | begin s c l d hs ih => exact ih
    | noDisplay s hs ih => exact ih
    | display s hs ih => exact ih
    | noCursor s hs ih => exact ih
    | cursor s hs ih => exact ih
    | noBlink s hs ih => exact ih
    | blink s hs ih => exact ih
    | leftToRight s hs ih => exact ih
    | rightToLeft s hs ih => exact ih
    | autoscroll s hs ih => exact ih
    | noAutoscroll s hs ih => exact ih
    | setBacklight s st hs ih => exact ih

/-- C5 witness: constructing with address 9 clamps to 7, and that reachable
state's address is within [0,7]. -/
theorem C5_witness :
    (LiquidTWI.init 9 0 0 0 0).i2cAddr = 7 ∧ (LiquidTWI.init 9 0 0 0 0).i2cAddr ≤ 7 :=
  ⟨(C5_address_clamp_invariant 9 0 0 0 0).1.1 (by decide),
   (C5_address_clamp_invariant 9 0 0 0 0).2 (LiquidTWI.init 9 0 0 0 0) (Reachable.init 9 0 0 0 0)⟩

/-- C6: `setBacklight status` transmits a single GPIO register write whose
value has only the backlight bit (0x80) possibly set — 0x80 when on,
all-zero when off — and the stored backlight flag is then reflected in bit
7 of every byte transmitted by subsequent `display` and `cursor` control
commands, so the backlight bit on the wire persists through unrelated
control commands.  (`displaycontrol` is a byte field, hence the bound.) -/
theorem C6_backlight (s : LiquidTWI) (status : Nat) (hdc : s.displaycontrol < 256) :
    (s.setBacklight status).2 =
      [Ev.mcpTx (MCP23008_ADDRESS ||| s.i2cAddr)
        [MCP23008_GPIOREG, if status % 256 ≠ 0 then 0x80 else 0x00]] ∧
    ((gpioBytes (s.setBacklight status).1.display.2).all
      (fun b => b &&& 0x80 == if status % 256 ≠ 0 then 0x80 else 0x00)) = true ∧
    ((gpioBytes (s.setBacklight status).1.cursor.2).all
      (fun b => b &&& 0x80 == if status % 256 ≠ 0 then 0x80 else 0x00)) = true := by
  obtain ⟨a, f, dc, dm, nl, cl⟩ := s
  simp only at hdc
  by_cases hs0 : status % 256 = 0 <;>
    simp only [LiquidTWI.setBacklight, LiquidTWI.display, LiquidTWI.cursor, LiquidTWI.command,
      LiquidTWI.send, LiquidTWI.burstBits, gpioBytes, hs0, LCD_BACKLIGHT, LCD_DISPLAYON,
      LCD_CURSORON, LCD_DISPLAYCONTROL, MCP23008_GPIOREG, MCP23008_ADDRESS, LOW, HIGH,
      ne_eq, not_true_eq_false, not_false_eq_true, ite_true, ite_false, reduceIte,
      List.filterMap, List.all, Ev.mcpTx.injEq, List.cons.injEq, and_true, true_and,
      eq_self_iff_true] <;>
    revert dc <;> decide

/-- C6 witness: turning the backlight on from a fresh driver. -/
theorem C6_witness :
    ((LiquidTWI.init 0 0 0 0 0).setBacklight 1).2 =
      [Ev.mcpTx (MCP23008_ADDRESS ||| (LiquidTWI.init 0 0 0 0 0).i2cAddr)
        [MCP23008_GPIOREG, if 1 % 256 ≠ 0 then 0x80 else 0x00]] ∧
    ((gpioBytes ((LiquidTWI.init 0 0 0 0 0).setBacklight 1).1.display.2).all
      (fun b => b &&& 0x80 == if 1 % 256 ≠ 0 then 0x80 else 0x00)) = true ∧
    ((gpioBytes ((LiquidTWI.init 0 0 0 0 0).setBacklight 1).1.cursor.2).all
      (fun b => b &&& 0x80 == if 1 % 256 ≠ 0 then 0x80 else 0x00)) = true :=
  C6_backlight (LiquidTWI.init 0 0 0 0 0) 1 (by decide)

/-- C7: initialization emits the fixed 8-burst 4-bit-mode handshake
sequence (GPIO bytes 0x9C 0x98 0x9C 0x98 0x9C 0x98 0x94 0x90), in that
exact order and before any function-set command, and then sends the
function-set command twice, each send followed by a delay: the trace of
`begin` starts with exactly these 23 events. -/
theorem C7_handshake_then_function_set (s : LiquidTWI) (cols lines dotsize : Nat) :
    ((s.begin cols lines dotsize).2).take 23 =
      [Ev.delayMs 50, Ev.wireBegin,
       Ev.mcpTx (MCP23008_ADDRESS ||| s.i2cAddr)
         [MCP23008_IODIR, 0xFF, 0x00, 0x00, 0x00, 0x00, 0x00, 0x00, 0x00, 0x00, 0x00],
       Ev.mcpTx (MCP23008_ADDRESS ||| s.i2cAddr) [MCP23008_IODIR, 0x00],
       Ev.mcpTx (MCP23008_ADDRESS ||| s.i2cAddr) [MCP23008_GPIOREG, 0x9C],
       Ev.mcpTx (MCP23008_ADDRESS ||| s.i2cAddr) [MCP23008_GPIOREG, 0x98],
       Ev.mcpTx (MCP23008_ADDRESS ||| s.i2cAddr) [MCP23008_GPIOREG, 0x9C],
       Ev.mcpTx (MCP23008_ADDRESS ||| s.i2cAddr) [MCP23008_GPIOREG, 0x98],
       Ev.mcpTx (MCP23008_ADDRESS ||| s.i2cAddr) [MCP23008_GPIOREG, 0x9C],
       Ev.mcpTx (MCP23008_ADDRESS ||| s.i2cAddr) [MCP23008_GPIOREG, 0x98],
       Ev.mcpTx (MCP23008_ADDRESS ||| s.i2cAddr) [MCP23008_GPIOREG, 0x94],
       Ev.mcpTx (MCP23008_ADDRESS ||| s.i2cAddr) [MCP23008_GPIOREG, 0x90],
       Ev.delayMs 5]
      ++ s.command (LCD_FUNCTIONSET ||| (s.begin cols lines dotsize).1.displayfunction)
      ++ [Ev.delayMs 5]
      ++ s.command (LCD_FUNCTIONSET ||| (s.begin cols lines dotsize).1.displayfunction)
      ++ [Ev.delayMs 5] := by
  rfl

/-- C8: every call to `clear` (and likewise `home`) transmits the reset
command byte and then issues a blocking wait of at least 2000 microseconds
after the command byte. -/
theorem C8_clear_home_wait (s : LiquidTWI) :
    (∃ us, 2000 ≤ us ∧ s.clear = s.command LCD_CLEARDISPLAY ++ [Ev.delayUs us]) ∧
    (∃ us, 2000 ≤ us ∧ s.home = s.command LCD_RETURNHOME ++ [Ev.delayUs us]) :=
  ⟨⟨2000, le_refl 2000, rfl⟩, ⟨2000, le_refl 2000, rfl⟩⟩

lemma endTransmissionRetry_sound (ack : Nat → Bool) :
    ∀ fuel start k, endTransmissionRetry ack fuel start = some k →
      ack k = true ∧ start ≤ k ∧ ∀ j, start ≤ j → j < k → ack j = false := by
  intro fuel
  induction fuel with
  | zero => intro start k h; simp [endTransmissionRetry] at h
  | succ n ih =>
    intro start k h
    by_cases ha : ack start
    · have hk : k = start := by
        simp [endTransmissionRetry, ha] at h
        omega
      subst hk
      exact ⟨ha, le_refl _, fun j h1 h2 => absurd h1 (by omega)⟩
    · have h' : endTransmissionRetry ack n (start + 1) = some k := by
        simpa [endTransmissionRetry, ha] using h
      obtain ⟨hk, hle, hall⟩ := ih (start + 1) k h'
      refine ⟨hk, by omega, fun j h1 h2 => ?_⟩
      rcases Nat.lt_or_ge j (start + 1) with hj | hj
      · have hj' : j = start := by omega
        subst hj'
        simpa using ha
      · exact hall j hj h2

lemma endTransmissionRetry_complete (ack : Nat → Bool) :
    ∀ k start, ack (start + k) = true → ∃ m, endTransmissionRetry ack (k + 1) start = some m := by
  intro k
  induction k with
  | zero =>
    intro start h
    rw [Nat.add_zero] at h
    exact ⟨start, by simp [endTransmissionRetry, h]⟩
  | succ n ih =>
    intro start h
    by_cases ha : ack start
    · exact ⟨start, by simp [endTransmissionRetry, ha]⟩
    · have h' : ack (start + 1 + n) = true := by
        have e : start + 1 + n = start + (n + 1) := by omega
        rw [e]; exact h
      obtain ⟨m, hm⟩ := ih (start + 1) h'
      refine ⟨m, ?_⟩
      show endTransmissionRetry ack (n + 1 + 1) start = some m
      rw [show endTransmissionRetry ack (n + 1 + 1) start =
            if ack start = true then some start else endTransmissionRetry ack (n + 1) (start + 1)
          from rfl,
        if_neg ha]
      exact hm

/-- C9: the final step of every nibble-burst transmission busy-loops,
retrying `endTransmission` until the transport reports success: the loop
can terminate exactly when the transport eventually acknowledges (so it
never terminates if the transport never reports success, there being no
timeout), and when it returns it has retried until the first success. -/
theorem C9_retry_until_success (ack : Nat → Bool) :
    ((∃ k, ack k = true) ↔ ∃ fuel k, endTransmissionRetry ack fuel 0 = some k) ∧
    ∀ fuel k, endTransmissionRetry ack fuel 0 = some k →
      ack k = true ∧ ∀ j, j < k → ack j = false := by
  constructor
  · constructor
    · rintro ⟨k, hk⟩
      obtain ⟨m, hm⟩ := endTransmissionRetry_complete ack k 0 (by simpa using hk)
      exact ⟨k + 1, m, hm⟩
    · rintro ⟨fuel, k, hk⟩
      exact ⟨k, (endTransmissionRetry_sound ack fuel 0 k hk).1⟩
  · intro fuel k hk
    obtain ⟨h1, _, h3⟩ := endTransmissionRetry_sound ack fuel 0 k hk
    exact ⟨h1, fun j hj => h3 j (Nat.zero_le j) hj⟩

/-- C9 witness: with a transport that first succeeds on the third attempt,
the loop exits there, as the theorem's characterization demands. -/
theorem C9_witness : (fun k : Nat => k == 2) 2 = true :=
  ((C9_retry_until_success (fun k : Nat => k == 2)).2 3 2 (by decide)).1

/-- `begin` rewrites `_displayfunction` with OR-updates only; this spells
the update out. -/
lemma begin_displayfunction (s : LiquidTWI) (cols lines dotsize : Nat) :
    (s.begin cols lines dotsize).1.displayfunction =
      (if dotsize % 256 ≠ 0 ∧ lines % 256 = 1 then
        (if lines % 256 > 1 then s.displayfunction ||| LCD_2LINE else s.displayfunction)
          ||| LCD_5x10DOTS
       else
        (if lines % 256 > 1 then s.displayfunction ||| LCD_2LINE else s.displayfunction)) := rfl

/-- C10: `begin` only ever ORs bits into the display-function flags and
never clears them: any bit already set stays set after any later `begin`;
in particular `begin c1 2 _` followed by `begin c2 1 0` still leaves the
2-line flag (bit 3) set even though the later call configured one line. -/
theorem C10_begin_or_only (s : LiquidTWI) (cols lines dotsize i : Nat)
    (h : s.displayfunction.testBit i = true) :
    (s.begin cols lines dotsize).1.displayfunction.testBit i = true ∧
    ∀ c1 c2 : Nat, (((s.begin c1 2 0).1).begin c2 1 0).1.displayfunction.testBit 3 = true := by
  constructor
  · rw [begin_displayfunction]
    split_ifs <;> simp [Nat.testBit_lor, h]
  · intro c1 c2
    rw [begin_displayfunction, begin_displayfunction]
    norm_num
    simp [Nat.testBit_lor, show Nat.testBit 8 3 = true from rfl, LCD_2LINE]

/-- C10 witness: after `begin 16 2 0` the 2-line bit is set, and a further
`begin 20 1 0` keeps it set. -/
theorem C10_witness :
    ((((LiquidTWI.init 0 0 0 0 0).begin 16 2 0).1).begin 20 1 0).1.displayfunction.testBit 3 =
      true ∧
    (((((((LiquidTWI.init 0 0 0 0 0).begin 16 2 0).1).begin 16 2 0).1).begin 20 1 0).1
      ).displayfunction.testBit 3 = true :=
  ⟨(C10_begin_or_only (((LiquidTWI.init 0 0 0 0 0).begin 16 2 0).1) 20 1 0 3 (by decide)).1,
   (C10_begin_or_only (((LiquidTWI.init 0 0 0 0 0).begin 16 2 0).1) 16 2 0 3 (by decide)).2 16 20⟩
